import Mathlib

/-!
Verification of the REAPER voice-command planning/validation pipeline
(`reaper_py`): a shallow embedding of `validate.py`, `gemini_agent.py`
(schema enforcement and context summary), `bridge.py` (the clarification
negotiator `process_payload`), `preview.py` and `history.py`, together
with theorems about the embedded definitions.

Modelling conventions:
- Dynamic JSON-like Python values are modelled by the inductive `Val`;
  Python `dict`s are association lists (`List (String × Val)`) with
  first-occurrence lookup, which coincides with Python dict semantics
  (keys are unique in every dict the code builds).
- Python `int` and `float` are modelled by `Val.int : ℤ` and
  `Val.float : ℚ`.  Every numeric comparison and format the claims touch
  is exact at the values involved, so exact rationals are faithful.
  Python `bool` is a separate constructor, which matches the code's
  systematic `isinstance(x, bool)` exclusions.
- `copy.deepcopy` is the identity on immutable Lean values; the source's
  "never mutate the caller's context" discipline is inherent here.
-/

/-- Dynamic value, mirroring the JSON-ish Python values the pipeline
passes around (`None`, `bool`, `int`, `float`, `str`, `list`, `dict`). -/
inductive Val where
  | null
  | bool (b : Bool)
  | int (n : ℤ)
  | float (q : ℚ)
  | str (s : String)
  | list (xs : List Val)
  | dict (kvs : List (String × Val))

/-- Lookup in a Python dict (`d.get(k)`): first binding of the key. -/
def dget (kvs : List (String × Val)) (k : String) : Option Val :=
  match kvs with
  | [] => none
  | (k2, v) :: rest => if k2 = k then some v else dget rest k

/-- Assignment in a Python dict (`d[k] = v`): replace the binding in
place if present, otherwise append at the end (insertion order). -/
def dset (kvs : List (String × Val)) (k : String) (v : Val) : List (String × Val) :=
  match kvs with
  | [] => [(k, v)]
  | (k2, w) :: rest => if k2 = k then (k2, v) :: rest else (k2, w) :: dset rest k v

/-- Removal of a key from a Python dict (building the same request
payload without the field). -/
def dremove (kvs : List (String × Val)) (k : String) : List (String × Val) :=
  match kvs with
  | [] => []
  | (k2, v) :: rest => if k2 = k then dremove rest k else (k2, v) :: dremove rest k


/-- Python `str.strip()` (whitespace trim at both ends), computed
structurally over the character list. -/
def pyStrip (s : String) : String :=
  String.mk (((s.toList.dropWhile Char.isWhitespace).reverse.dropWhile
    Char.isWhitespace).reverse)

/-- Python `str.lower()` (the strings involved are ASCII). -/
def pyLower (s : String) : String := String.mk (s.toList.map Char.toLower)

/-- Test whether `needle` occurs as a contiguous subsequence of `hay`
(Python `needle in hay` on lists of characters). -/
def containsSeq (needle : List Char) : List Char → Bool
  | [] => needle.isEmpty
  | c :: rest => needle.isPrefixOf (c :: rest) || containsSeq needle rest

/-- Python substring test `needle in hay`. -/
def strContains (hay needle : String) : Bool :=
  containsSeq needle.toList hay.toList

/-- Set-equality of two key collections, as Python compares
`set(d.keys()) == {...}`. -/
def strSetEq (xs ys : List String) : Bool :=
  xs.all (fun x => ys.contains x) && ys.all (fun y => xs.contains y)

/-- Numeric extraction: `isinstance(v, (int, float)) and not
isinstance(v, bool)`, followed by `float(v)`.  Booleans are a separate
`Val` constructor, so the bool exclusion is structural. -/
def numVal : Val → Option ℚ
  | Val.int n => some (n : ℚ)
  | Val.float q => some q
  | _ => none

/-- Numeric extraction from an optional lookup result (`d.get(k)` that
may be missing). -/
def numValOpt (v : Option Val) : Option ℚ :=
  match v with
  | some w => numVal w
  | none => none

/-- Python `_as_float(value, fallback)` from `preview.py`. -/
def asFloat (v : Option Val) (fallback : ℚ) : ℚ :=
  match numValOpt v with
  | some q => q
  | none => fallback

/-- Python `int(q)` on a float: truncation toward zero. -/
def pyTrunc (q : ℚ) : ℤ :=
  if q < 0 then Int.ceil q else Int.floor q

/-- Python `_as_int(value, fallback)` from `preview.py`: an `int` passes
through, any other number is truncated, anything else falls back. -/
def pyAsInt (v : Option Val) (fallback : ℤ) : ℤ :=
  match v with
  | some (Val.int n) => n
  | some (Val.float q) => pyTrunc q
  | _ => fallback

/-- Nearest integer with ties to even, the rounding used by Python
`format(x, ".Nf")` (applied here to the exact rational value). -/
def roundHalfEven (q : ℚ) : ℤ :=
  let f : ℤ := Int.floor q
  let r : ℚ := q - (f : ℚ)
  if r < 1/2 then f
  else if (1:ℚ)/2 < r then f + 1
  else if f % 2 = 0 then f else f + 1

/-- Left-pad a string with zeros to the given width (Python `0N` format
padding). -/
def padLeftZeros (w : Nat) (s : String) : String :=
  if w ≤ s.length then s
  else String.mk (List.replicate (w - s.length) '0') ++ s

/-- Python fixed-point formatting `f"{q:.precf}"` on the exact rational
value of the float. -/
def fmtFixed (prec : Nat) (q : ℚ) : String :=
  let scaled : ℤ := roundHalfEven (q * ((10 : ℚ) ^ prec))
  let n : Nat := scaled.natAbs
  let p : Nat := 10 ^ prec
  let sign : String := if q < 0 then "-" else ""
  if prec = 0 then sign ++ toString (n / p)
  else sign ++ toString (n / p) ++ "." ++ padLeftZeros prec (toString (n % p))

/-- Python `_fmt_time(seconds)` from `preview.py`:
`f"{minutes:02d}:{secs:06.3f}"`. -/
def fmtTime (seconds : ℚ) : String :=
  let minutes : ℤ := Int.floor (seconds / 60)
  let secs : ℚ := seconds - 60 * (minutes : ℚ)
  padLeftZeros 2 (toString minutes) ++ ":" ++ padLeftZeros 6 (fmtFixed 3 secs)

/-- Decimal digits of `num/den` (with `num < den`), used to approximate
Python `repr` of a float; only reached inside diagnostic messages for
malformed plans. -/
def fracDigits : Nat → Nat → Nat → String
  | 0, _, _ => ""
  | _ + 1, 0, _ => ""
  | fuel + 1, num, den =>
      let n10 := num * 10
      toString (n10 / den) ++ fracDigits fuel (n10 % den) den

/-- Approximation of Python `repr` for a float (exact decimal expansion,
truncated at 17 fractional digits).  Exact for every value these
theorems evaluate. -/
def floatRepr (q : ℚ) : String :=
  let sign := if q < 0 then "-" else ""
  let a : ℚ := |q|
  let ip : ℤ := Int.floor a
  let frac : ℚ := a - (ip : ℚ)
  let fs := fracDigits 17 frac.num.natAbs frac.den
  sign ++ toString ip ++ "." ++ (if fs = "" then "0" else fs)

mutual

/-- Approximation of Python `repr` for a dynamic value, used only in
f-string diagnostics (`{name!r}`, the fallback preview line).  String
escaping is simplified; every claim-relevant message avoids these
branches or hits them on plain ASCII without quotes. -/
def reprVal : Val → String
  | Val.null => "None"
  | Val.bool true => "True"
  | Val.bool false => "False"
  | Val.int n => toString n
  | Val.float q => floatRepr q
  | Val.str s => "\x27" ++ s ++ "\x27"
  | Val.list xs => "[" ++ String.intercalate ", " (reprValList xs) ++ "]"
  | Val.dict kvs => "\x7b" ++ String.intercalate ", " (reprKvs kvs) ++ "\x7d"

/-- Helper of `reprVal` for lists. -/
def reprValList : List Val → List String
  | [] => []
  | v :: rest => reprVal v :: reprValList rest

/-- Helper of `reprVal` for dict entries. -/
def reprKvs : List (String × Val) → List String
  | [] => []
  | (k, v) :: rest => ("\x27" ++ k ++ "\x27: " ++ reprVal v) :: reprKvs rest

end

/-- Python `repr` of a sorted list of strings, as in
`str(sorted(arg_set))`. -/
def reprStrList (xs : List String) : String :=
  "[" ++ String.intercalate ", " (xs.map (fun s => "\x27" ++ s ++ "\x27")) ++ "]"

/-- Minimum of a nonempty list of rationals (Python `min(xs)`); the `[]`
case is never reached by callers. -/
def listMin : List ℚ → ℚ
  | [] => 0
  | x :: xs => xs.foldl min x

/-- Maximum of a nonempty list of rationals (Python `max(xs)`). -/
def listMax : List ℚ → ℚ
  | [] => 0
  | x :: xs => xs.foldl max x

/-- `WHITELISTED_TOOLS` from `validate.py`. -/
def WHITELISTED_TOOLS : List String :=
  ["fade_out", "fade_in", "set_volume_delta", "set_volume_set", "set_pan",
   "add_fx", "mute", "unmute", "solo", "unsolo", "crossfade", "cut_middle",
   "split_at_cursor", "duplicate", "trim_to_time_selection"]

/-- `FX_TYPES` from `validate.py`. -/
def FX_TYPES : List String := ["compressor", "eq", "reverb"]

/-- `NO_ARG_TOOLS` from `validate.py`. -/
def NO_ARG_TOOLS : List String :=
  ["mute", "unmute", "solo", "unsolo", "split_at_cursor", "trim_to_time_selection"]

/-- The exact top-level key set of a plan object. -/
def requiredPlanKeys : List String :=
  ["tool_calls", "needs_clarification", "clarification_question"]

/-- `_selected_items(ctx)` from `validate.py` (also `_selected_clips`
in `preview.py`): the `selected_items` list if it is a list, else `[]`. -/
def selectedItemsOf (ctx : List (String × Val)) : List Val :=
  match dget ctx "selected_items" with
  | some (Val.list xs) => xs
  | _ => []

/-- `_selected_tracks(ctx)` from `validate.py` / `preview.py`. -/
def selectedTracksOf (ctx : List (String × Val)) : List Val :=
  match dget ctx "selected_tracks" with
  | some (Val.list xs) => xs
  | _ => []

/-- `_has_time_selection(ctx)` from `validate.py`: a dict
`time_selection` whose numeric `end` is strictly greater than its
numeric `start`. -/
def hasTimeSelectionOf (ctx : List (String × Val)) : Bool :=
  match dget ctx "time_selection" with
  | some (Val.dict ts) =>
      match numValOpt (dget ts "start"), numValOpt (dget ts "end") with
      | some a, some b => decide (a < b)
      | _, _ => false
  | _ => false

/-- `_validate_plan_shape(plan)` from `validate.py`, returning the same
`(ok, error)` pair. -/
def validatePlanShape (plan : List (String × Val)) : Bool × Option String :=
  if strSetEq (plan.map Prod.fst) requiredPlanKeys = false then
    (false, some "Invalid plan: keys must be exactly tool_calls, needs_clarification, clarification_question.")
  else
    match dget plan "tool_calls" with
    | some (Val.list tcs) =>
        match dget plan "needs_clarification" with
        | some (Val.bool nc) =>
            if nc then
              if tcs.isEmpty = false then
                (false, some "Invalid plan: clarification response must not include tool calls.")
              else
                match dget plan "clarification_question" with
                | some (Val.str q) =>
                    if pyStrip q = "" then
                      (false, some "Invalid plan: clarification_question must be a non-empty string.")
                    else (true, none)
                | _ => (false, some "Invalid plan: clarification_question must be a non-empty string.")
            else
              match dget plan "clarification_question" with
              | none =>
                  if tcs.isEmpty then (false, some "Invalid plan: tool_calls cannot be empty.")
                  else (true, none)
              | some Val.null =>
                  if tcs.isEmpty then (false, some "Invalid plan: tool_calls cannot be empty.")
                  else (true, none)
              | some _ =>
                  (false, some "Invalid plan: clarification_question must be null when needs_clarification=false.")
        | _ => (false, some "Invalid plan: needs_clarification must be boolean.")
    | _ => (false, some "Invalid plan: tool_calls must be a list.")

/-- `_validate_set_volume_delta(args)` from `validate.py`. -/
def validateSetVolumeDelta (args : List (String × Val)) : Bool × Option String :=
  let hasDb := (dget args "db").isSome
  let hasPercent := (dget args "percent").isSome
  if hasDb = hasPercent then
    (false, some "Invalid args for set_volume_delta: provide exactly one of db or percent.")
  else if hasDb then
    if strSetEq (args.map Prod.fst) ["db"] = false then
      (false, some "Invalid args for set_volume_delta: only db is allowed in dB mode.")
    else
      match numValOpt (dget args "db") with
      | none => (false, some "Invalid args for set_volume_delta: db must be numeric.")
      | some db =>
          if ¬ (-24 ≤ db ∧ db ≤ 24) then
            (false, some "Invalid args for set_volume_delta: db must be between -24 and 24.")
          else (true, none)
  else
    if strSetEq (args.map Prod.fst) ["percent"] = false then
      (false, some "Invalid args for set_volume_delta: only percent is allowed in percent mode.")
    else
      match numValOpt (dget args "percent") with
      | none => (false, some "Invalid args for set_volume_delta: percent must be numeric.")
      | some percent =>
          if ¬ (-90 ≤ percent ∧ percent ≤ 200) then
            (false, some "Invalid args for set_volume_delta: percent must be between -90 and 200.")
          else (true, none)

/-- `_validate_set_volume_set(args)` from `validate.py`. -/
def validateSetVolumeSet (args : List (String × Val)) : Bool × Option String :=
  if strSetEq (args.map Prod.fst) ["percent"] = false then
    (false, some "Invalid args for set_volume_set: expected only percent.")
  else
    match numValOpt (dget args "percent") with
    | none => (false, some "Invalid args for set_volume_set: percent must be numeric.")
    | some percent =>
        if ¬ (0 ≤ percent ∧ percent ≤ 200) then
          (false, some "Invalid args for set_volume_set: percent must be between 0 and 200.")
        else (true, none)

/-- Body of the per-tool-call `if/elif` chain of `validate_tool_plan`
(`validate.py` lines 151-247), for one already key-checked call with a
whitelisted `name` and dict `args`.  Note the source's chain tests
`name in NO_ARG_TOOLS` first, so the later `elif` branches for `mute`,
`unmute`, `solo`, `unsolo`, `split_at_cursor` and
`trim_to_time_selection` are unreachable; they are kept verbatim. -/
def validateOneCall (name : String) (args : List (String × Val))
    (itemCount trackCount : Nat) (hasTS : Bool) : Bool × Option String :=
  if NO_ARG_TOOLS.contains name then
    if args.isEmpty = false then
      (false, some ("Invalid args for " ++ name ++ ": expected no args."))
    else (true, none)
  else if name = "fade_in" ∨ name = "fade_out" then
    if strSetEq (args.map Prod.fst) ["seconds"] = false then
      (false, some ("Invalid args for " ++ name ++ ": expected only seconds."))
    else
      match numValOpt (dget args "seconds") with
      | none => (false, some ("Invalid args for " ++ name ++ ": seconds must be numeric."))
      | some s =>
          if ¬ (0 < s ∧ s ≤ 30) then
            (false, some ("Invalid args for " ++ name ++ ": seconds must be > 0 and <= 30."))
          else if itemCount < 1 then
            (false, some (name ++ " requires at least 1 selected clip."))
          else (true, none)
  else if name = "set_volume_delta" then
    match validateSetVolumeDelta args with
    | (false, e) => (false, e)
    | (true, _) =>
        if trackCount < 1 then
          (false, some "set_volume_delta requires at least 1 selected track.")
        else (true, none)
  else if name = "set_volume_set" then
    match validateSetVolumeSet args with
    | (false, e) => (false, e)
    | (true, _) =>
        if trackCount < 1 then
          (false, some "set_volume_set requires at least 1 selected track.")
        else (true, none)
  else if name = "set_pan" then
    if strSetEq (args.map Prod.fst) ["pan"] = false then
      (false, some "Invalid args for set_pan: expected only pan.")
    else
      match dget args "pan" with
      | some (Val.int pan) =>
          if ¬ (-100 ≤ pan ∧ pan ≤ 100) then
            (false, some "Invalid args for set_pan: pan must be between -100 and 100.")
          else if trackCount < 1 then
            (false, some "set_pan requires at least 1 selected track.")
          else (true, none)
      | _ => (false, some "Invalid args for set_pan: pan must be an integer.")
  else if name = "add_fx" then
    if strSetEq (args.map Prod.fst) ["type"] = false then
      (false, some "Invalid args for add_fx: expected only type.")
    else
      match dget args "type" with
      | some (Val.str fxType) =>
          if FX_TYPES.contains fxType = false then
            (false, some ("Invalid args for add_fx: type must be one of " ++ reprStrList FX_TYPES ++ "."))
          else if trackCount < 1 then
            (false, some "add_fx requires at least 1 selected track.")
          else (true, none)
      | _ => (false, some "Invalid args for add_fx: type must be a string.")
  else if name = "mute" ∨ name = "unmute" ∨ name = "solo" ∨ name = "unsolo" then
    if trackCount < 1 then
      (false, some (name ++ " requires at least 1 selected track."))
    else (true, none)
  else if name = "crossfade" then
    if strSetEq (args.map Prod.fst) ["seconds"] = false then
      (false, some "Invalid args for crossfade: expected only seconds.")
    else
      match numValOpt (dget args "seconds") with
      | none => (false, some "Invalid args for crossfade: seconds must be numeric.")
      | some s =>
          if ¬ (0 < s ∧ s ≤ 10) then
            (false, some "Invalid args for crossfade: seconds must be > 0 and <= 10.")
          else if itemCount ≠ 2 then
            (false, some "crossfade requires exactly 2 selected clips.")
          else (true, none)
  else if name = "cut_middle" then
    if strSetEq (args.map Prod.fst) ["seconds"] = false then
      (false, some "Invalid args for cut_middle: expected only seconds.")
    else
      match numValOpt (dget args "seconds") with
      | none => (false, some "Invalid args for cut_middle: seconds must be numeric.")
      | some s =>
          if ¬ (0 < s) then
            (false, some "Invalid args for cut_middle: seconds must be > 0.")
          else if itemCount < 1 then
            (false, some "cut_middle requires at least 1 selected clip.")
          else (true, none)
  else if name = "split_at_cursor" then
    if itemCount < 1 ∧ hasTS = false then
      (false, some "split_at_cursor requires selected clip(s) or a time selection.")
    else (true, none)
  else if name = "duplicate" then
    if strSetEq (args.map Prod.fst) ["count"] = false then
      (false, some "Invalid args for duplicate: expected only count.")
    else
      match dget args "count" with
      | some (Val.int count) =>
          if ¬ (1 ≤ count ∧ count ≤ 32) then
            (false, some "Invalid args for duplicate: count must be between 1 and 32.")
          else if itemCount < 1 ∧ trackCount < 1 then
            (false, some "duplicate requires selected clip(s) or selected track(s).")
          else (true, none)
      | _ => (false, some "Invalid args for duplicate: count must be an integer.")
  else if name = "trim_to_time_selection" then
    if hasTS = false then
      (false, some "trim_to_time_selection requires an active time selection.")
    else if itemCount < 1 then
      (false, some "trim_to_time_selection requires at least 1 selected clip.")
    else (true, none)
  else (true, none)

/-- The `for index, tool_call in enumerate(plan["tool_calls"])` loop of
`validate_tool_plan`: fail-fast over the calls. -/
def validateCalls (itemCount trackCount : Nat) (hasTS : Bool) :
    Nat → List Val → Bool × Option String
  | _, [] => (true, none)
  | idx, c :: rest =>
      match c with
      | Val.dict call =>
          if strSetEq (call.map Prod.fst) ["name", "args"] = false then
            (false, some ("Invalid tool call at index " ++ toString idx ++ ": keys must be exactly name and args."))
          else
            match dget call "name" with
            | some (Val.str name) =>
                if WHITELISTED_TOOLS.contains name = false then
                  (false, some ("Unsupported tool: " ++ reprVal (Val.str name) ++ "."))
                else
                  match dget call "args" with
                  | some (Val.dict args) =>
                      match validateOneCall name args itemCount trackCount hasTS with
                      | (false, e) => (false, e)
                      | (true, _) => validateCalls itemCount trackCount hasTS (idx + 1) rest
                  | _ => (false, some ("Invalid args for " ++ name ++ ": expected object."))
            | other =>
                (false, some ("Unsupported tool: " ++ reprVal (other.getD Val.null) ++ "."))
      | _ => (false, some ("Invalid tool call at index " ++ toString idx ++ ": expected object."))

/-- `validate_tool_plan(plan, ctx)` from `validate.py`. -/
def validateToolPlan (plan ctx : Val) : Bool × Option String :=
  match plan with
  | Val.dict pkvs =>
      match ctx with
      | Val.dict ckvs =>
          match validatePlanShape pkvs with
          | (false, e) => (false, e)
          | (true, _) =>
              match dget pkvs "needs_clarification" with
              | some (Val.bool true) => (true, none)
              | _ =>
                let itemCount := (selectedItemsOf ckvs).length
                let trackCount := (selectedTracksOf ckvs).length
                let hasTS := hasTimeSelectionOf ckvs
                let tcs :=
                  match dget pkvs "tool_calls" with
                  | some (Val.list xs) => xs
                  | _ => []
                validateCalls itemCount trackCount hasTS 0 tcs
      | _ => (false, some "Invalid context: expected object.")
  | _ => (false, some "Invalid plan: expected object.")

/-- `suggestion_for_error(error, ctx)` from `validate.py`: the local
clarification-question synthesizer. -/
def suggestionForError (error : String) (ctx : List (String × Val)) : Option String :=
  let itemCount := (selectedItemsOf ctx).length
  let trackCount := (selectedTracksOf ctx).length
  if strContains error "selected clip" = true ∧ 0 < trackCount then
    some "Do you mean the selected clip(s) or the selected track(s)?"
  else if strContains error "selected track" = true ∧ 0 < itemCount then
    some "Do you mean the selected track(s) or the selected clip(s)?"
  else if strContains error "crossfade requires exactly 2 selected clips" = true then
    some "Please select exactly two clips to crossfade."
  else none

/-- A normalized tool call as produced by `_enforce_schema`
(`{"name": name, "args": args}`). -/
structure ToolCallV where
  name : String
  args : List (String × Val)

/-- The normalized plan dict returned by `_enforce_schema`: exactly the
keys `tool_calls`, `needs_clarification`, `clarification_question`
(`none` models JSON null). -/
structure PlanS where
  tool_calls : List ToolCallV
  needs_clarification : Bool
  clarification_question : Option String

/-- Reconstruction of the plan dict `_enforce_schema` returns, in the
exact key and entry order of the source, as later passed to
`validate_tool_plan`. -/
def PlanS.toVal (p : PlanS) : Val :=
  Val.dict
    [("tool_calls", Val.list (p.tool_calls.map (fun c =>
        Val.dict [("name", Val.str c.name), ("args", Val.dict c.args)]))),
     ("needs_clarification", Val.bool p.needs_clarification),
     ("clarification_question",
        match p.clarification_question with
        | some s => Val.str s
        | none => Val.null)]

/-- `TOOL_ARG_KEYS` / `_allowed_arg_keys(name)` from `gemini_agent.py`:
the declared key-set alternatives for each whitelisted tool. -/
def allowedArgKeys (name : String) : List (List String) :=
  if name = "fade_out" then [["seconds"]]
  else if name = "fade_in" then [["seconds"]]
  else if name = "set_volume_delta" then [["db"], ["percent"]]
  else if name = "set_volume_set" then [["percent"]]
  else if name = "set_pan" then [["pan"]]
  else if name = "add_fx" then [["type"]]
  else if name = "mute" then [[]]
  else if name = "unmute" then [[]]
  else if name = "solo" then [[]]
  else if name = "unsolo" then [[]]
  else if name = "crossfade" then [["seconds"]]
  else if name = "cut_middle" then [["seconds"]]
  else if name = "split_at_cursor" then [[]]
  else if name = "duplicate" then [["count"]]
  else if name = "trim_to_time_selection" then [[]]
  else []

/-- The four unconditional entries of `build_ctx_summary`
(`gemini_agent.py` lines 172-177). -/
def ctxSummaryBase (ctx : List (String × Val)) : List (String × Val) :=
  [("selected_clips_count", Val.int (selectedItemsOf ctx).length),
   ("selected_tracks_count", Val.int (selectedTracksOf ctx).length),
   ("cursor", Val.float
      (match numValOpt (dget ctx "cursor") with
       | some q => q
       | none => 0)),
   ("time_selection", Val.null)]

/-- The numeric clip start values collected by `build_ctx_summary`. -/
def summaryStarts (ctx : List (String × Val)) : List ℚ :=
  (selectedItemsOf ctx).filterMap (fun it =>
    match it with
    | Val.dict d => numValOpt (dget d "start")
    | _ => none)

/-- The numeric clip end values collected by `build_ctx_summary`. -/
def summaryEnds (ctx : List (String × Val)) : List ℚ :=
  (selectedItemsOf ctx).filterMap (fun it =>
    match it with
    | Val.dict d => numValOpt (dget d "end")
    | _ => none)

/-- The `selected_clips_range` update of `build_ctx_summary`
(lines 179-191). -/
def ctxSummaryRange (ctx summary : List (String × Val)) : List (String × Val) :=
  if (summaryStarts ctx).isEmpty = false ∧ (summaryEnds ctx).isEmpty = false then
    dset summary "selected_clips_range"
      (Val.dict [("start", Val.float (listMin (summaryStarts ctx))),
                 ("end", Val.float (listMax (summaryEnds ctx)))])
  else summary

/-- The `time_selection` update of `build_ctx_summary` (lines 193-198):
the bounds are emitted whenever both are numeric, with no validity
check on their order. -/
def ctxSummaryTime (ctx summary : List (String × Val)) : List (String × Val) :=
  match dget ctx "time_selection" with
  | some (Val.dict ts) =>
      match numValOpt (dget ts "start"), numValOpt (dget ts "end") with
      | some a, some b =>
          dset summary "time_selection"
            (Val.dict [("start", Val.float a), ("end", Val.float b)])
      | _, _ => summary
  | _ => summary

/-- The `forced_target` update of `build_ctx_summary` (lines 200-202). -/
def ctxSummaryForced (ctx summary : List (String × Val)) : List (String × Val) :=
  match dget ctx "forced_target" with
  | some (Val.str t) =>
      if t = "clips" ∨ t = "tracks" then dset summary "forced_target" (Val.str t)
      else summary
  | _ => summary

/-- `build_ctx_summary(ctx)` from `gemini_agent.py`: the reduced
projection of the selection context sent to the planner, assembled by
the four sequential updates above in source order. -/
def buildCtxSummary (ctx : List (String × Val)) : List (String × Val) :=
  ctxSummaryForced ctx (ctxSummaryTime ctx (ctxSummaryRange ctx (ctxSummaryBase ctx)))

/-- Python `sorted(xs)` on strings (insertion sort; the lists involved
have at most two elements). -/
def insertSorted (x : String) : List String → List String
  | [] => [x]
  | y :: ys => if x ≤ y then x :: y :: ys else y :: insertSorted x ys

/-- Python `sorted(xs)` on strings (insertion sort; the lists involved
have at most two elements). -/
def sortStrings (xs : List String) : List String :=
  xs.foldr (fun x acc => insertSorted x acc) []

/-- The tool-call loop of `_enforce_schema`: checks each call and
collects the normalized `{"name": name, "args": args}` entries. -/
def enforceCalls : List Val → Nat → Except String (List ToolCallV)
  | [], _ => Except.ok []
  | c :: rest, idx =>
      match c with
      | Val.dict call =>
          if strSetEq (call.map Prod.fst) ["name", "args"] = false then
            Except.error ("Gemini output: tool_call at index " ++ toString idx ++ " must contain only name and args.")
          else
            match dget call "name" with
            | some (Val.str name) =>
                if WHITELISTED_TOOLS.contains name = false then
                  Except.error ("Gemini output: unsupported tool " ++ reprVal (Val.str name) ++ ".")
                else
                  match dget call "args" with
                  | some (Val.dict args) =>
                      if (allowedArgKeys name).any
                          (fun ks => strSetEq (args.map Prod.fst) ks) = false then
                        Except.error ("Gemini output: args for " ++ name ++ " must be "
                          ++ String.intercalate " or "
                              ((allowedArgKeys name).map (fun ks => reprStrList (sortStrings ks)))
                          ++ ".")
                      else
                        match enforceCalls rest (idx + 1) with
                        | Except.ok cs => Except.ok (⟨name, args⟩ :: cs)
                        | Except.error m => Except.error m
                  | _ => Except.error ("Gemini output: args for " ++ name ++ " must be an object.")
            | other =>
                Except.error ("Gemini output: unsupported tool " ++ reprVal (other.getD Val.null) ++ ".")
      | _ => Except.error ("Gemini output: tool_call at index " ++ toString idx ++ " is not an object.")

/-- `_enforce_schema(plan)` from `gemini_agent.py`: rejects any raw plan
violating the contract, otherwise returns the normalized plan.  A raised
`GeminiAgentError` is modelled as `Except.error` with the message. -/
def enforceSchema (plan : List (String × Val)) : Except String PlanS :=
  if strSetEq (plan.map Prod.fst) requiredPlanKeys = false then
    Except.error "Gemini output keys are invalid."
  else
    match dget plan "tool_calls" with
    | some (Val.list toolCalls) =>
        match dget plan "needs_clarification" with
        | some (Val.bool needsClar) =>
            if needsClar then
              if toolCalls.isEmpty = false then
                Except.error "Gemini output: clarification cannot include tool_calls."
              else
                match dget plan "clarification_question" with
                | some (Val.str q) =>
                    if pyStrip q = "" then
                      Except.error "Gemini output: clarification_question must be non-empty."
                    else Except.ok ⟨[], true, some (pyStrip q)⟩
                | _ => Except.error "Gemini output: clarification_question must be non-empty."
            else
              match dget plan "clarification_question" with
              | none =>
                  if toolCalls.isEmpty then
                    Except.error "Gemini output: tool_calls cannot be empty."
                  else
                    match enforceCalls toolCalls 0 with
                    | Except.ok cs => Except.ok ⟨cs, false, none⟩
                    | Except.error m => Except.error m
              | some Val.null =>
                  if toolCalls.isEmpty then
                    Except.error "Gemini output: tool_calls cannot be empty."
                  else
                    match enforceCalls toolCalls 0 with
                    | Except.ok cs => Except.ok ⟨cs, false, none⟩
                    | Except.error m => Except.error m
              | some _ =>
                  Except.error "Gemini output: clarification_question must be null when needs_clarification=false."
        | _ => Except.error "Gemini output: needs_clarification must be a boolean."
    | _ => Except.error "Gemini output: tool_calls must be a list."

/-- `_volume_delta_line(args)` from `preview.py`. -/
def volumeDeltaLine (args : List (String × Val)) : String :=
  if (dget args "db").isSome then
    let db := asFloat (dget args "db") 0
    let direction := if 0 < db then "Raise" else "Lower"
    direction ++ " track volume by " ++ fmtFixed 1 |db| ++ " dB"
  else
    let percent := asFloat (dget args "percent") 0
    let direction := if 0 < percent then "Raise" else "Lower"
    let multiplier : ℚ := 1 + percent / 100
    direction ++ " track volume by " ++ fmtFixed 1 |percent| ++ "% (gain x "
      ++ fmtFixed 2 multiplier ++ ")"

/-- `_render_tool_line(tool_call, clip_count, track_count)` from
`preview.py`.  The calls reaching this function are schema-normalized,
so `name`/`args` are present and `args` is a dict; the final fallback
line (unreachable for whitelisted names, all of which are handled
above it) uses the approximate `reprVal`. -/
def renderToolLine (c : ToolCallV) (clipCount trackCount : Nat) : String :=
  let name := c.name
  let args := c.args
  if name = "fade_out" then
    "Fade out by " ++ fmtFixed 1 (asFloat (dget args "seconds") 0) ++ "s"
  else if name = "fade_in" then
    "Fade in by " ++ fmtFixed 1 (asFloat (dget args "seconds") 0) ++ "s"
  else if name = "set_volume_delta" then
    volumeDeltaLine args
  else if name = "set_volume_set" then
    let percent := asFloat (dget args "percent") 0
    "Set track volume to " ++ fmtFixed 1 percent ++ "% (gain = "
      ++ fmtFixed 2 (percent / 100) ++ ")"
  else if name = "set_pan" then
    let pan := pyAsInt (dget args "pan") 0
    if pan = 0 then "Set pan to center"
    else
      let direction := if pan < 0 then "left" else "right"
      "Set pan to " ++ toString pan.natAbs ++ " " ++ direction
  else if name = "add_fx" then
    let fxType :=
      match dget args "type" with
      | some (Val.str s) => s
      | some v => reprVal v
      | none => "None"
    "Add " ++ fxType ++ " FX"
  else if name = "mute" then "Mute selected track(s)"
  else if name = "unmute" then "Unmute selected track(s)"
  else if name = "solo" then "Solo selected track(s)"
  else if name = "unsolo" then "Unsolo selected track(s)"
  else if name = "crossfade" then
    "Crossfade " ++ toString clipCount ++ " selected clips over "
      ++ fmtFixed 1 (asFloat (dget args "seconds") 0) ++ "s"
  else if name = "cut_middle" then
    "Remove " ++ fmtFixed 1 (asFloat (dget args "seconds") 0)
      ++ "s from middle of selected clip(s)"
  else if name = "split_at_cursor" then "Split selected clip(s) at cursor"
  else if name = "duplicate" then
    let count := pyAsInt (dget args "count") 0
    if 0 < clipCount then "Duplicate selected clip(s) " ++ toString count ++ " times"
    else if 0 < trackCount then "Duplicate selected track(s) " ++ toString count ++ " times"
    else "Duplicate selection " ++ toString count ++ " times"
  else if name = "trim_to_time_selection" then "Trim selected clip(s) to time selection"
  else name ++ " " ++ reprVal (Val.dict args)

/-- The flag accumulation of the `build_preview` loop: which target
classes the rendered calls use. -/
def previewFlags (clipCount trackCount : Nat) (toolCalls : List ToolCallV) :
    Bool × Bool × Bool :=
  toolCalls.foldl
    (fun acc c =>
      let usesClips := acc.1 ||
        ["fade_in", "fade_out", "crossfade", "cut_middle", "split_at_cursor",
         "trim_to_time_selection"].contains c.name
      let usesTracks := acc.2.1 ||
        ["set_volume_delta", "set_volume_set", "set_pan", "add_fx", "mute",
         "unmute", "solo", "unsolo"].contains c.name
      let usesTime := acc.2.2 ||
        ["split_at_cursor", "trim_to_time_selection"].contains c.name
      if c.name = "duplicate" then
        if 0 < clipCount then (true, usesTracks, usesTime)
        else if 0 < trackCount then (usesClips, true, usesTime)
        else (usesClips, usesTracks, usesTime)
      else (usesClips, usesTracks, usesTime))
    (false, false, false)

/-- The clip-summary bullets of `build_preview`: count line plus the
min-start/max-end range line when computable. -/
def clipSummaryBullets (clips : List Val) (clipCount : Nat) : List String :=
  let countLine :=
    if clipCount = 1 then ["Applied to 1 selected clip"]
    else if 1 < clipCount then ["Applied to " ++ toString clipCount ++ " selected clips"]
    else []
  let pairs := clips.filterMap (fun clip =>
    match clip with
    | Val.dict d =>
        let s := asFloat (dget d "start") (-1)
        let e := asFloat (dget d "end") (-1)
        if 0 ≤ s ∧ 0 ≤ e then some (s, e) else none
    | _ => none)
  let rangeLine :=
    if pairs.isEmpty = false then
      ["Range: " ++ fmtTime (listMin (pairs.map Prod.fst)) ++ " -> "
        ++ fmtTime (listMax (pairs.map Prod.snd))]
    else []
  countLine ++ rangeLine

/-- The track-summary bullets of `build_preview`. -/
def trackSummaryBullets (trackCount : Nat) : List String :=
  if trackCount = 1 then ["Applied to 1 selected track"]
  else if 1 < trackCount then ["Applied to " ++ toString trackCount ++ " selected tracks"]
  else []

/-- The time-selection bullet of `build_preview`. -/
def timeSelBullet (usesTime : Bool) (ctx : List (String × Val)) : List String :=
  if usesTime then
    match dget ctx "time_selection" with
    | some (Val.dict ts) =>
        let s := asFloat (dget ts "start") (-1)
        let e := asFloat (dget ts "end") (-1)
        if s < e then
          ["Time selection: " ++ fmtTime s ++ " -> " ++ fmtTime e]
        else []
    | _ => []
  else []

/-- `build_preview(tool_calls, ctx)` from `preview.py`, returning the
bullet list (the title is the constant `"Preview:"`). -/
def buildPreview (toolCalls : List ToolCallV) (ctx : List (String × Val)) : List String :=
  let clips := selectedItemsOf ctx
  let tracks := selectedTracksOf ctx
  let clipCount := clips.length
  let trackCount := tracks.length
  let bullets := toolCalls.map (fun c => renderToolLine c clipCount trackCount)
  let flags := previewFlags clipCount trackCount toolCalls
  let bullets := bullets ++ (if flags.1 then clipSummaryBullets clips clipCount else [])
  let bullets := bullets ++ (if flags.2.1 then trackSummaryBullets trackCount else [])
  bullets ++ timeSelBullet flags.2.2 ctx

/-- `render_preview_text(tool_calls, ctx)` from `preview.py`. -/
def renderPreviewText (toolCalls : List ToolCallV) (ctx : List (String × Val)) : String :=
  String.intercalate "\n"
    ("Preview:" :: (buildPreview toolCalls ctx).map (fun b => "- " ++ b))

/-- Failure kinds of plan acquisition (`plan_tool_calls`):
`GeminiNotConfiguredError`, `GeminiAgentError`, or any unexpected
exception, matching the three `except` arms of `process_payload`. -/
inductive GException where
  | notConfigured (msg : String)
  | agentError (msg : String)
  | other (msg : String)

/-- The external planner transport: credential lookup, `_call_gemini`
and `_extract_json_text` (`gemini_agent.py`), collapsed to a single
black-box collaborator that maps `(command text, context summary)` to a
parsed JSON object or a failure.  `_extract_json_text` guarantees a
dict on success. -/
def PlannerT : Type :=
  String → List (String × Val) → Except GException (List (String × Val))

/-- `plan_tool_calls(user_text, ctx)` from `gemini_agent.py`: strip the
command, call the transport on `(command, build_ctx_summary(ctx))`, then
run `_enforce_schema` on the parsed output (an enforcement failure is a
`GeminiAgentError`). -/
def planToolCalls (planner : PlannerT) (userText : String)
    (ctx : List (String × Val)) : Except GException PlanS :=
  let command := pyStrip userText
  if command = "" then Except.error (GException.agentError "Command is empty.")
  else
    match planner command (buildCtxSummary ctx) with
    | Except.error e => Except.error e
    | Except.ok raw =>
        match enforceSchema raw with
        | Except.ok p => Except.ok p
        | Except.error m => Except.error (GException.agentError m)

/-- The `_response(...)` object of `bridge.py`. -/
structure Response where
  ok : Bool
  needs_clarification : Bool
  clarification_question : Option String
  error : Option String
  preview : String
  tool_calls : List ToolCallV

/-- `_response(ok=False, error=e)`. -/
def respErr (e : String) : Response := ⟨false, false, none, some e, "", []⟩

/-- `_normalize_target(value)` from `bridge.py`: accepts only the four
clip/track synonyms, case-insensitively, after stripping. -/
def normalizeTarget (value : Option Val) : Option String :=
  match value with
  | some (Val.str s) =>
      let v := pyLower (pyStrip s)
      if v = "clip" ∨ v = "clips" then some "clips"
      else if v = "track" ∨ v = "tracks" then some "tracks"
      else none
  | _ => none

/-- The `forced_target` / `clarification_answer` precedence of
`process_payload` (`bridge.py` lines 118-121): an explicit
`forced_target` wins, else the `clarification_answer`. -/
def effTarget (ftV caV : Option Val) : Option String :=
  match normalizeTarget ftV with
  | some t => some t
  | none => normalizeTarget caV

/-- `_normalize_conversation_hint(value)` from `bridge.py`. -/
def normalizeConversationHint (value : Option Val) : Option (List (String × Val)) :=
  match value with
  | some (Val.dict kvs) =>
      let entries := ["last_intent", "pending_intent"].filterMap (fun k =>
        match dget kvs k with
        | some (Val.str raw) =>
            if pyStrip raw = "" then none else some (k, Val.str (pyStrip raw))
        | _ => none)
      if entries.isEmpty then none else some entries
  | _ => none

/-- `_target_error(target)` from `bridge.py`. -/
def targetError (target : String) : String :=
  if target = "tracks" then "No selected tracks. Select a track in REAPER."
  else "No selected clips. Select a clip in REAPER."

/-- `_is_target_selection_error(error, target)` from `bridge.py`. -/
def isTargetSelectionError (error target : String) : Bool :=
  let lowered := pyLower error
  if target = "tracks" then strContains lowered "selected track"
  else strContains lowered "selected clip"

/-- `_is_target_clarification(question)` from `bridge.py`: the question
mentions both target vocabularies. -/
def isTargetClarification (question : String) : Bool :=
  let lowered := pyLower question
  strContains lowered "clip" && strContains lowered "track"

/-- `_ctx_for_target(ctx, forced_target)` from `bridge.py`: deep-copied
planning context with the opposite selection cleared and the forced
target recorded (deep copy is the identity here). -/
def ctxForTarget (ctx : List (String × Val)) (forcedTarget : Option String) :
    List (String × Val) :=
  let planningCtx := ctx
  let planningCtx :=
    if forcedTarget = some "tracks" then dset planningCtx "selected_items" (Val.list [])
    else if forcedTarget = some "clips" then dset planningCtx "selected_tracks" (Val.list [])
    else planningCtx
  match forcedTarget with
  | some t => dset planningCtx "forced_target" (Val.str t)
  | none => planningCtx

/-- `_cmd_for_target(command, forced_target)` from `bridge.py`. -/
def cmdForTarget (command : String) (forcedTarget : Option String) : String :=
  if forcedTarget = some "tracks" then
    command ++ "\nUser clarified target: selected tracks."
  else if forcedTarget = some "clips" then
    command ++ "\nUser clarified target: selected clips."
  else command

/-- The planning context built by `process_payload`:
`_ctx_for_target(ctx, forced_target)` with the conversation hint added
when present. -/
def planningCtxOf (ckvs : List (String × Val)) (forcedTarget : Option String)
    (hint : Option (List (String × Val))) : List (String × Val) :=
  let planningCtx := ctxForTarget ckvs forcedTarget
  match hint with
  | some h => dset planningCtx "conversation_hint" (Val.dict h)
  | none => planningCtx

/-- The plan-handling tail of `process_payload` (`bridge.py` lines
138-175): the clarification negotiation, contextual validation and
preview rendering on an acquired plan. -/
def afterPlan (plan : PlanS) (forcedTarget : Option String)
    (planningCtx : List (String × Val)) : Response :=
  if plan.needs_clarification then
    match forcedTarget with
    | some t =>
        let question := plan.clarification_question.getD ""
        if isTargetClarification question then
          ⟨false, false, none, some (targetError t), "", []⟩
        else
          ⟨false, false, none,
            some "Could not resolve command after clarification. Try a more specific command.",
            "", []⟩
    | none =>
        ⟨true, true, plan.clarification_question, none,
          "Clarification needed before generating a preview.", []⟩
  else
    match validateToolPlan plan.toVal (Val.dict planningCtx) with
    | (false, validationError) =>
        match forcedTarget with
        | some t =>
            let hit :=
              match validationError with
              | some e => if e = "" then false else isTargetSelectionError e t
              | none => false
            if hit then ⟨false, false, none, some (targetError t), "", []⟩
            else respErr ("Validation error: " ++ validationError.getD "None")
        | none =>
            match suggestionForError (validationError.getD "") planningCtx with
            | some q =>
                ⟨true, true, some q, none,
                  "Clarification needed before generating a preview.", []⟩
            | none => respErr ("Validation error: " ++ validationError.getD "None")
    | (true, _) =>
        ⟨true, false, none, none, renderPreviewText plan.tool_calls planningCtx,
          plan.tool_calls⟩

/-- The body of `process_payload` after the request fields have been
read once (`payload.get` is pure, so hoisting the reads preserves the
source's behaviour exactly). -/
def processRequest (planner : PlannerT) (cmdV ctxV : Option Val)
    (forcedTarget : Option String) (hint : Option (List (String × Val))) : Response :=
  match cmdV with
  | some (Val.str command) =>
      if pyStrip command = "" then
        respErr "Input error: cmd must be a non-empty string."
      else
        match ctxV with
        | some (Val.dict ckvs) =>
            let planningCtx := planningCtxOf ckvs forcedTarget hint
            let planningCmd := cmdForTarget (pyStrip command) forcedTarget
            match planToolCalls planner planningCmd planningCtx with
            | Except.error (GException.notConfigured m) => respErr m
            | Except.error (GException.agentError m) =>
                respErr ("Gemini planning error: " ++ m)
            | Except.error (GException.other m) =>
                respErr ("Unexpected planning error: " ++ m)
            | Except.ok plan => afterPlan plan forcedTarget planningCtx
        | _ => respErr "Input error: ctx must be an object."
  | _ => respErr "Input error: cmd must be a non-empty string."

/-- The effective forced target of a request payload
(`bridge.py` lines 118-121). -/
def effectiveTarget (payload : List (String × Val)) : Option String :=
  effTarget (dget payload "forced_target") (dget payload "clarification_answer")

/-- `process_payload(payload)` from `bridge.py`, parameterized by the
external planner transport. -/
def processPayload (planner : PlannerT) (payload : List (String × Val)) : Response :=
  processRequest planner (dget payload "cmd") (dget payload "ctx")
    (effectiveTarget payload)
    (normalizeConversationHint (dget payload "conversation_hint"))

/-- One entry of the command history (`history.py`):
`{timestamp, command, tool_calls}`.  The `timestamp or now()` default
is resolved by the caller (the clock is an external input). -/
structure HistoryEntry where
  timestamp : String
  command : String
  tool_calls : List Val

/-- `CommandHistory` from `history.py`: a bounded, newest-first list. -/
structure CommandHistory where
  limit : Nat
  items : List HistoryEntry

/-- `CommandHistory.add(cmd, tool_calls, timestamp)`: skip blank
commands, else prepend the entry and truncate to the limit. -/
def CommandHistory.add (h : CommandHistory) (cmd : String)
    (toolCalls : List Val) (timestamp : String) : CommandHistory :=
  let c := pyStrip cmd
  if c = "" then h
  else
    { h with items := ({ timestamp := timestamp, command := c,
                         tool_calls := toolCalls } :: h.items).take h.limit }

/-- The legal raw top-level shape of a plan object, as the claims state
it: exactly the three keys, and exactly one of the two legal
clarification/tool-call combinations. -/
def rawPlanLegal (plan : List (String × Val)) : Bool :=
  strSetEq (plan.map Prod.fst) requiredPlanKeys &&
    (match dget plan "tool_calls", dget plan "needs_clarification" with
     | some (Val.list tcs), some (Val.bool nc) =>
         if nc then
           tcs.isEmpty &&
             (match dget plan "clarification_question" with
              | some (Val.str q) => !(pyStrip q == "")
              | _ => false)
         else
           (match dget plan "clarification_question" with
            | none => true
            | some Val.null => true
            | some _ => false) && !tcs.isEmpty
     | _, _ => false)

/-- A sequence of `CommandHistory.add` operations, each given as
`(cmd, tool_calls, timestamp)`, applied in order. -/
def histApply (ops : List (String × List Val × String)) (h : CommandHistory) :
    CommandHistory :=
  ops.foldl (fun acc op => acc.add op.1 op.2.1 op.2.2) h

/-- The entry a single `add` operation stores, if any: blank commands
store nothing. -/
def histEntryOf (op : String × List Val × String) : Option HistoryEntry :=
  if pyStrip op.1 = "" then none
  else some { timestamp := op.2.2, command := pyStrip op.1, tool_calls := op.2.1 }

/-- A plan dict holding a single tool call, in the exact shape
`_enforce_schema` outputs. -/
def singleCallPlan (name : String) (args : List (String × Val)) : Val :=
  Val.dict
    [("tool_calls", Val.list [Val.dict [("name", Val.str name), ("args", Val.dict args)]]),
     ("needs_clarification", Val.bool false),
     ("clarification_question", Val.null)]

/-- The keys `build_ctx_summary` may emit. -/
def summaryKeys : List String :=
  ["selected_clips_count", "selected_tracks_count", "cursor", "time_selection",
   "selected_clips_range", "forced_target"]

/-- Concrete planner stub: always returns a clarification whose question
mentions both vocabularies. -/
def w2planner : PlannerT := fun _ _ =>
  Except.ok [("tool_calls", Val.list []), ("needs_clarification", Val.bool true),
    ("clarification_question", Val.str "Apply to the clip or the track?")]

/-- Concrete request carrying a forced target. -/
def w2payload : List (String × Val) :=
  [("cmd", Val.str "mute"), ("ctx", Val.dict []), ("forced_target", Val.str "tracks")]

/-- Concrete planner stub: returns a single crossfade call. -/
def c3planner : PlannerT := fun _ _ =>
  Except.ok [("tool_calls", Val.list [Val.dict [("name", Val.str "crossfade"),
      ("args", Val.dict [("seconds", Val.float 1)])]]),
    ("needs_clarification", Val.bool false), ("clarification_question", Val.null)]

/-- Concrete request with one selected clip, no tracks, no forced
target. -/
def c3payload : List (String × Val) :=
  [("cmd", Val.str "crossfade them"),
   ("ctx", Val.dict [("selected_items", Val.list [Val.dict []]),
     ("selected_tracks", Val.list [])])]

/-- Concrete planner stub: returns a single track-scoped volume call. -/
def w3planner : PlannerT := fun _ _ =>
  Except.ok [("tool_calls", Val.list [Val.dict [("name", Val.str "set_volume_set"),
      ("args", Val.dict [("percent", Val.float 50)])]]),
    ("needs_clarification", Val.bool false), ("clarification_question", Val.null)]

/-- Concrete request with one selected clip and no tracks. -/
def w3payload : List (String × Val) :=
  [("cmd", Val.str "set volume to 50%"),
   ("ctx", Val.dict [("selected_items", Val.list [Val.dict []]),
     ("selected_tracks", Val.list [])])]

/-- Concrete planner stub that fails, keeping witness evaluation
small. -/
def w10planner : PlannerT := fun _ _ =>
  Except.error (GException.agentError "no")

/-- Concrete request whose forced_target is a non-string. -/
def w10payload : List (String × Val) :=
  [("cmd", Val.str "mute"), ("ctx", Val.dict []), ("forced_target", Val.int 5)]

/-! Theorems. -/

theorem dget_dset_same (kvs : List (String × Val)) (k : String) (v : Val) :
    dget (dset kvs k v) k = some v := by
  induction kvs with
  | nil => simp [dset, dget]
  | cons p rest ih =>
      obtain ⟨k2, w⟩ := p
      by_cases h : k2 = k <;> simp [dset, dget, h, ih]

theorem dget_dset_ne (kvs : List (String × Val)) (k k2 : String) (v : Val)
    (h : k2 ≠ k) : dget (dset kvs k v) k2 = dget kvs k2 := by
  have hks : ¬ (k = k2) := fun hh => h hh.symm
  induction kvs with
  | nil => simp [dset, dget, hks]
  | cons p rest ih =>
      obtain ⟨k3, w⟩ := p
      by_cases h3 : k3 = k
      · subst h3
        simp [dset, dget, hks]
      · by_cases h4 : k3 = k2
        · subst h4
          simp [dset, dget, h3]
        · simp [dset, dget, h3, h4, ih]

theorem dget_dremove_same (kvs : List (String × Val)) (k : String) :
    dget (dremove kvs k) k = none := by
  induction kvs with
  | nil => simp [dremove, dget]
  | cons p rest ih =>
      obtain ⟨k2, w⟩ := p
      by_cases h : k2 = k <;> simp [dremove, dget, h, ih]

theorem dget_dremove_ne (kvs : List (String × Val)) (k k2 : String)
    (h : k2 ≠ k) : dget (dremove kvs k) k2 = dget kvs k2 := by
  have hks : ¬ (k = k2) := fun hh => h hh.symm
  induction kvs with
  | nil => simp [dremove, dget]
  | cons p rest ih =>
      obtain ⟨k3, w⟩ := p
      by_cases h3 : k3 = k
      · subst h3
        simp [dremove, dget, hks, ih]
      · by_cases h4 : k3 = k2
        · subst h4
          simp [dremove, dget, h3]
        · simp [dremove, dget, h3, h4, ih]

theorem mem_keys_dset (kvs : List (String × Val)) (k j : String) (v : Val)
    (h : j ∈ (dset kvs k v).map Prod.fst) :
    j ∈ kvs.map Prod.fst ∨ j = k := by
  induction kvs with
  | nil => simpa [dset] using h
  | cons p rest ih =>
      obtain ⟨k2, w⟩ := p
      by_cases h2 : k2 = k
      · subst h2
        simp [dset] at h
        rcases h with h | h
        · exact Or.inl (by simp [h])
        · exact Or.inl (by simp; exact Or.inr h)
      · simp [dset, h2] at h
        rcases h with h | h
        · exact Or.inl (by simp [h])
        · rcases ih (by simpa using h) with h3 | h3
          · exact Or.inl (by simp; exact Or.inr (by simpa using h3))
          · exact Or.inr h3

theorem take_append_take {A : Type} (l m : List A) (j k : Nat) (h : k ≤ j) :
    (l ++ m.take j).take k = (l ++ m).take k := by
  induction l generalizing k with
  | nil =>
      simp only [List.nil_append]
      rw [List.take_take, Nat.min_eq_left h]
  | cons a l ih =>
      cases k with
      | zero => simp
      | succ k2 =>
          simp only [List.cons_append, List.take_succ_cons]
          rw [ih k2 (Nat.le_of_succ_le h)]

theorem histApply_items (ops : List (String × List Val × String)) :
    ∀ (items : List HistoryEntry) (limit : Nat), items.length ≤ limit →
      (histApply ops ⟨limit, items⟩).items
        = ((ops.reverse.filterMap histEntryOf) ++ items).take limit := by
  induction ops with
  | nil =>
      intro items limit h
      simp [histApply, List.take_of_length_le h]
  | cons op ops ih =>
      intro items limit h
      have step : histApply (op :: ops) ⟨limit, items⟩
          = histApply ops (CommandHistory.add ⟨limit, items⟩ op.1 op.2.1 op.2.2) := rfl
      by_cases hc : pyStrip op.1 = ""
      · have hadd : CommandHistory.add ⟨limit, items⟩ op.1 op.2.1 op.2.2
            = ⟨limit, items⟩ := by
          simp [CommandHistory.add, hc]
        rw [step, hadd, ih items limit h]
        simp [List.filterMap_append, histEntryOf, hc]
      · have hadd : CommandHistory.add ⟨limit, items⟩ op.1 op.2.1 op.2.2
            = ⟨limit, (({ timestamp := op.2.2, command := pyStrip op.1,
                          tool_calls := op.2.1 } : HistoryEntry) :: items).take limit⟩ := by
          simp [CommandHistory.add, hc]
        rw [step, hadd,
          ih _ limit (by rw [List.length_take]; exact Nat.min_le_left _ _),
          take_append_take _ _ limit limit (Nat.le_refl limit)]
        simp [List.filterMap_append, histEntryOf, hc]

/-- C9: every sequence of `add` operations on a fresh history leaves the
stored list equal to the newest-first sequence of entries for the
non-blank commands, truncated at the limit; in particular the length
never exceeds the limit and each add prepends its entry and drops the
oldest beyond the limit. -/
theorem spec_C9 (limit : Nat) (ops : List (String × List Val × String)) :
    (histApply ops ⟨limit, []⟩).items
      = (ops.reverse.filterMap histEntryOf).take limit ∧
    (histApply ops ⟨limit, []⟩).items.length ≤ limit := by
  have h := histApply_items ops [] limit (by simp)
  refine ⟨by simpa using h, ?_⟩
  rw [h]
  simp [List.length_take]

theorem enforceCalls_length (tcs : List Val) :
    ∀ (idx : Nat) (cs : List ToolCallV), enforceCalls tcs idx = Except.ok cs →
      cs.length = tcs.length := by
  induction tcs with
  | nil =>
      intro idx cs h
      simp only [enforceCalls] at h
      cases h
      rfl
  | cons c rest ih =>
      intro idx cs h
      simp only [enforceCalls] at h
      iterate 8 (all_goals try split at h)
      all_goals cases h
      all_goals rename_i heq
      all_goals simp [ih _ _ heq]

theorem enforceSchema_ok_shape (kvs : List (String × Val)) (p : PlanS)
    (h : enforceSchema kvs = Except.ok p) :
    (p.needs_clarification = true →
        p.tool_calls = [] ∧ ∃ q, p.clarification_question = some q ∧ q ≠ "") ∧
    (p.needs_clarification = false →
        p.clarification_question = none ∧ p.tool_calls ≠ []) ∧
    rawPlanLegal kvs = true := by
  simp only [enforceSchema] at h
  iterate 8 (all_goals try split at h)
  all_goals cases h
  all_goals simp_all [rawPlanLegal, pyStrip]
  all_goals rename_i hne heq
  all_goals intro hcs
  all_goals subst hcs
  all_goals
    exact hne (List.length_eq_zero.mp
      (by simpa using (enforceCalls_length _ _ _ heq).symm))

/-- C1: every plan accepted by the schema enforcer satisfies exactly one
of the two legal shapes — needs_clarification false with a null question
and non-empty tool calls, or needs_clarification true with a non-empty
question and no tool calls — and any raw plan violating this top-level
shape (including top-level keys other than exactly tool_calls,
needs_clarification, clarification_question) is rejected in full. -/
theorem spec_C1 :
    (∀ (kvs : List (String × Val)) (p : PlanS), enforceSchema kvs = Except.ok p →
        (p.needs_clarification = true →
            p.tool_calls = [] ∧ ∃ q, p.clarification_question = some q ∧ q ≠ "") ∧
        (p.needs_clarification = false →
            p.clarification_question = none ∧ p.tool_calls ≠ [])) ∧
    (∀ kvs : List (String × Val), rawPlanLegal kvs = false →
        ∃ m, enforceSchema kvs = Except.error m) := by
  constructor
  · intro kvs p h
    exact ⟨(enforceSchema_ok_shape kvs p h).1, (enforceSchema_ok_shape kvs p h).2.1⟩
  · intro kvs hbad
    cases he : enforceSchema kvs with
    | error m => exact ⟨m, rfl⟩
    | ok p =>
        have hleg := (enforceSchema_ok_shape kvs p he).2.2
        rw [hleg] at hbad
        simp at hbad

/-- Witness for C1: a concrete legal clarification plan is accepted with
a non-empty question, and a concrete plan carrying an extra top-level
key is rejected. -/
theorem spec_C1_witness :
    ((PlanS.mk [] true (some "Which target?")).tool_calls = [] ∧
      ∃ q, (PlanS.mk [] true (some "Which target?")).clarification_question
        = some q ∧ q ≠ "") ∧
    (∃ m, enforceSchema
        [("tool_calls", Val.list []), ("needs_clarification", Val.bool true),
         ("clarification_question", Val.str "Which target?"), ("extra", Val.null)]
        = Except.error m) := by
  constructor
  · exact (spec_C1.1
      [("tool_calls", Val.list []), ("needs_clarification", Val.bool true),
       ("clarification_question", Val.str "Which target?")]
      (PlanS.mk [] true (some "Which target?")) (by rfl)).1 rfl
  · exact spec_C1.2 _ (by rfl)

/-- C4: the effective forced target is the normalized `forced_target`
when it normalizes, else the normalized `clarification_answer`; forcing
tracks empties `selected_items` and records the target (forcing clips
empties `selected_tracks`), leaving every other context key unchanged
(the planning context is a fresh value, so the caller's context object
is untouched); and the deterministic clarification note is appended to
the command text. -/
theorem spec_C4 :
    (∀ (ftV caV : Option Val) (t : String), normalizeTarget ftV = some t →
        effTarget ftV caV = some t) ∧
    (∀ ftV caV : Option Val, normalizeTarget ftV = none →
        effTarget ftV caV = normalizeTarget caV) ∧
    (∀ ckvs : List (String × Val),
        dget (ctxForTarget ckvs (some "tracks")) "selected_items" = some (Val.list []) ∧
        dget (ctxForTarget ckvs (some "tracks")) "forced_target" = some (Val.str "tracks") ∧
        ∀ k, k ≠ "selected_items" → k ≠ "forced_target" →
          dget (ctxForTarget ckvs (some "tracks")) k = dget ckvs k) ∧
    (∀ ckvs : List (String × Val),
        dget (ctxForTarget ckvs (some "clips")) "selected_tracks" = some (Val.list []) ∧
        dget (ctxForTarget ckvs (some "clips")) "forced_target" = some (Val.str "clips") ∧
        ∀ k, k ≠ "selected_tracks" → k ≠ "forced_target" →
          dget (ctxForTarget ckvs (some "clips")) k = dget ckvs k) ∧
    (∀ command : String,
        cmdForTarget command (some "tracks")
          = command ++ "\nUser clarified target: selected tracks." ∧
        cmdForTarget command (some "clips")
          = command ++ "\nUser clarified target: selected clips.") := by
  refine ⟨?_, ?_, ?_, ?_, ?_⟩
  · intro ftV caV t h
    simp [effTarget, h]
  · intro ftV caV h
    simp [effTarget, h]
  · intro ckvs
    have hred : ctxForTarget ckvs (some "tracks")
        = dset (dset ckvs "selected_items" (Val.list [])) "forced_target"
            (Val.str "tracks") := by
      simp [ctxForTarget]
    refine ⟨?_, ?_, ?_⟩
    · rw [hred, dget_dset_ne _ _ _ _ (by decide), dget_dset_same]
    · rw [hred, dget_dset_same]
    · intro k hk1 hk2
      rw [hred, dget_dset_ne _ _ _ _ hk2, dget_dset_ne _ _ _ _ hk1]
  · intro ckvs
    have hred : ctxForTarget ckvs (some "clips")
        = dset (dset ckvs "selected_tracks" (Val.list [])) "forced_target"
            (Val.str "clips") := by
      simp [ctxForTarget]
    refine ⟨?_, ?_, ?_⟩
    · rw [hred, dget_dset_ne _ _ _ _ (by decide), dget_dset_same]
    · rw [hred, dget_dset_same]
    · intro k hk1 hk2
      rw [hred, dget_dset_ne _ _ _ _ hk2, dget_dset_ne _ _ _ _ hk1]
  · intro command
    constructor <;> simp [cmdForTarget]

/-- Witness for C4: at concrete inputs, an explicit (case-insensitive)
forced target wins over the clarification answer, and forcing tracks
leaves an unrelated context key untouched. -/
theorem spec_C4_witness :
    effTarget (some (Val.str "TRACK")) (some (Val.str "clips")) = some "tracks" ∧
    dget (ctxForTarget [("selected_items", Val.list [Val.dict []]),
        ("cursor", Val.float 7)] (some "tracks")) "cursor"
      = dget [("selected_items", Val.list [Val.dict []]),
        ("cursor", Val.float 7)] "cursor" := by
  constructor
  · exact spec_C4.1 (some (Val.str "TRACK")) (some (Val.str "clips")) "tracks" (by rfl)
  · exact (spec_C4.2.2.1 [("selected_items", Val.list [Val.dict []]),
      ("cursor", Val.float 7)]).2.2 "cursor" (by decide) (by decide)

/-- Counterexample for C5: a context with no selected clips but a valid
time selection (end 3 strictly above start 0) and a schema-valid
`fade_in` with seconds 2 in range is rejected by the validator, although
the claim requires acceptance. -/
theorem spec_C5_cex :
    validateToolPlan (singleCallPlan "fade_in" [("seconds", Val.float 2)])
        (Val.dict [("selected_items", Val.list []),
          ("time_selection", Val.dict [("start", Val.float 0), ("end", Val.float 3)])])
      = (false, some "fade_in requires at least 1 selected clip.") ∧
    hasTimeSelectionOf [("selected_items", Val.list []),
      ("time_selection", Val.dict [("start", Val.float 0), ("end", Val.float 3)])] = true ∧
    ((0 : ℚ) < 2 ∧ (2 : ℚ) ≤ 30) := by
  refine ⟨by rfl, by rfl, by norm_num⟩

/-- C5 (amended): the validator accepts a schema-valid `fade_in` or
`fade_out` call if and only if `0 < seconds ≤ 30` and the context has at
least 1 selected clip; a valid time selection does not substitute for a
selected clip. -/
theorem spec_C5 (s : ℚ) (ckvs : List (String × Val)) :
    ((validateToolPlan (singleCallPlan "fade_in" [("seconds", Val.float s)])
        (Val.dict ckvs)).1 = true ↔
      (0 < s ∧ s ≤ 30 ∧ 1 ≤ (selectedItemsOf ckvs).length)) ∧
    ((validateToolPlan (singleCallPlan "fade_out" [("seconds", Val.float s)])
        (Val.dict ckvs)).1 = true ↔
      (0 < s ∧ s ≤ 30 ∧ 1 ≤ (selectedItemsOf ckvs).length)) := by
  have hin : validateToolPlan (singleCallPlan "fade_in" [("seconds", Val.float s)])
      (Val.dict ckvs)
      = (match (if ¬(0 < s ∧ s ≤ 30) then
                  (false, some "Invalid args for fade_in: seconds must be > 0 and <= 30.")
                else if (selectedItemsOf ckvs).length < 1 then
                  (false, some "fade_in requires at least 1 selected clip.")
                else (true, none) : Bool × Option String) with
         | (false, e) => (false, e)
         | (true, _) => (true, none)) := rfl
  have hout : validateToolPlan (singleCallPlan "fade_out" [("seconds", Val.float s)])
      (Val.dict ckvs)
      = (match (if ¬(0 < s ∧ s ≤ 30) then
                  (false, some "Invalid args for fade_out: seconds must be > 0 and <= 30.")
                else if (selectedItemsOf ckvs).length < 1 then
                  (false, some "fade_out requires at least 1 selected clip.")
                else (true, none) : Bool × Option String) with
         | (false, e) => (false, e)
         | (true, _) => (true, none)) := rfl
  constructor
  · rw [hin]
    by_cases h1 : 0 < s ∧ s ≤ 30
    · by_cases h2 : (selectedItemsOf ckvs).length < 1
      · rw [if_neg (not_not_intro h1), if_pos h2]
        exact ⟨fun hfalse => absurd hfalse (by simp),
          fun hr => absurd hr.2.2 (by omega)⟩
      · rw [if_neg (not_not_intro h1), if_neg h2]
        exact ⟨fun _ => ⟨h1.1, h1.2, by omega⟩, fun _ => rfl⟩
    · rw [if_pos h1]
      exact ⟨fun hfalse => absurd hfalse (by simp),
        fun hr => absurd ⟨hr.1, hr.2.1⟩ h1⟩
  · rw [hout]
    by_cases h1 : 0 < s ∧ s ≤ 30
    · by_cases h2 : (selectedItemsOf ckvs).length < 1
      · rw [if_neg (not_not_intro h1), if_pos h2]
        exact ⟨fun hfalse => absurd hfalse (by simp),
          fun hr => absurd hr.2.2 (by omega)⟩
      · rw [if_neg (not_not_intro h1), if_neg h2]
        exact ⟨fun _ => ⟨h1.1, h1.2, by omega⟩, fun _ => rfl⟩
    · rw [if_pos h1]
      exact ⟨fun hfalse => absurd hfalse (by simp),
        fun hr => absurd ⟨hr.1, hr.2.1⟩ h1⟩

/-- C6: a schema-valid `crossfade` with seconds in `(0, 10]` is rejected
with the message naming "exactly 2" when 1 or 3 clips are selected, and
accepted when exactly 2 are selected. -/
theorem spec_C6 (s : ℚ) (ckvs : List (String × Val)) (h1 : 0 < s) (h2 : s ≤ 10) :
    ((selectedItemsOf ckvs).length = 1 ∨ (selectedItemsOf ckvs).length = 3 →
        validateToolPlan (singleCallPlan "crossfade" [("seconds", Val.float s)])
            (Val.dict ckvs)
          = (false, some "crossfade requires exactly 2 selected clips.") ∧
        strContains "crossfade requires exactly 2 selected clips." "exactly 2" = true) ∧
    ((selectedItemsOf ckvs).length = 2 →
        validateToolPlan (singleCallPlan "crossfade" [("seconds", Val.float s)])
            (Val.dict ckvs) = (true, none)) := by
  have hred : validateToolPlan (singleCallPlan "crossfade" [("seconds", Val.float s)])
      (Val.dict ckvs)
      = (match (if ¬(0 < s ∧ s ≤ 10) then
                  (false, some "Invalid args for crossfade: seconds must be > 0 and <= 10.")
                else if (selectedItemsOf ckvs).length ≠ 2 then
                  (false, some "crossfade requires exactly 2 selected clips.")
                else (true, none) : Bool × Option String) with
         | (false, e) => (false, e)
         | (true, _) => (true, none)) := rfl
  constructor
  · intro hn
    rw [hred, if_neg (not_not_intro ⟨h1, h2⟩), if_pos (by omega)]
    exact ⟨rfl, by decide⟩
  · intro hn
    rw [hred, if_neg (not_not_intro ⟨h1, h2⟩), if_neg (by omega)]

/-- Witness for C6: with seconds 1, a single selected clip triggers the
"exactly 2" error and two selected clips are accepted. -/
theorem spec_C6_witness :
    (validateToolPlan (singleCallPlan "crossfade" [("seconds", Val.float 1)])
        (Val.dict [("selected_items", Val.list [Val.dict []])])
      = (false, some "crossfade requires exactly 2 selected clips.")) ∧
    (validateToolPlan (singleCallPlan "crossfade" [("seconds", Val.float 1)])
        (Val.dict [("selected_items", Val.list [Val.dict [], Val.dict []])])
      = (true, none)) := by
  constructor
  · exact ((spec_C6 1 [("selected_items", Val.list [Val.dict []])]
      (by norm_num) (by norm_num)).1 (Or.inl (by rfl))).1
  · exact (spec_C6 1 [("selected_items", Val.list [Val.dict [], Val.dict []])]
      (by norm_num) (by norm_num)).2 (by rfl)

theorem dget_ctxSummaryForced_ne (ctx S : List (String × Val)) (k : String)
    (h : k ≠ "forced_target") :
    dget (ctxSummaryForced ctx S) k = dget S k := by
  simp only [ctxSummaryForced]
  split
  · split
    · rw [dget_dset_ne _ _ _ _ h]
    · rfl
  · rfl

theorem dget_ctxSummaryRange_ne (ctx S : List (String × Val)) (k : String)
    (h : k ≠ "selected_clips_range") :
    dget (ctxSummaryRange ctx S) k = dget S k := by
  simp only [ctxSummaryRange]
  split
  · rw [dget_dset_ne _ _ _ _ h]
  · rfl

theorem dget_ctxSummaryTime_ts (ctx S : List (String × Val)) :
    dget (ctxSummaryTime ctx S) "time_selection"
      = (match dget ctx "time_selection" with
         | some (Val.dict ts) =>
             match numValOpt (dget ts "start"), numValOpt (dget ts "end") with
             | some a, some b =>
                 some (Val.dict [("start", Val.float a), ("end", Val.float b)])
             | _, _ => dget S "time_selection"
         | _ => dget S "time_selection") := by
  simp only [ctxSummaryTime]
  split
  · split
    · rw [dget_dset_same]
    · rfl
  · rfl

theorem dget_summary_ts (ckvs : List (String × Val)) :
    dget (buildCtxSummary ckvs) "time_selection"
      = (match dget ckvs "time_selection" with
         | some (Val.dict ts) =>
             match numValOpt (dget ts "start"), numValOpt (dget ts "end") with
             | some a, some b =>
                 some (Val.dict [("start", Val.float a), ("end", Val.float b)])
             | _, _ => some Val.null
         | _ => some Val.null) := by
  unfold buildCtxSummary
  rw [dget_ctxSummaryForced_ne _ _ _ (by decide), dget_ctxSummaryTime_ts]
  have hbase : dget (ctxSummaryRange ckvs (ctxSummaryBase ckvs)) "time_selection"
      = some Val.null := by
    rw [dget_ctxSummaryRange_ne _ _ _ (by decide)]
    rfl
  rw [hbase]

theorem mem_keys_summary (ckvs : List (String × Val)) (j : String)
    (h : j ∈ (buildCtxSummary ckvs).map Prod.fst) : j ∈ summaryKeys := by
  unfold buildCtxSummary at h
  have h1 : j ∈ ((ctxSummaryTime ckvs (ctxSummaryRange ckvs
      (ctxSummaryBase ckvs))).map Prod.fst) ∨ j = "forced_target" := by
    unfold ctxSummaryForced at h
    split at h
    · split at h
      · exact mem_keys_dset _ _ _ _ h
      · exact Or.inl h
    · exact Or.inl h
  rcases h1 with h1 | h1
  · have h2 : j ∈ ((ctxSummaryRange ckvs (ctxSummaryBase ckvs)).map Prod.fst)
        ∨ j = "time_selection" := by
      unfold ctxSummaryTime at h1
      split at h1
      · split at h1
        · exact mem_keys_dset _ _ _ _ h1
        · exact Or.inl h1
      · exact Or.inl h1
    rcases h2 with h2 | h2
    · have h3 : j ∈ ((ctxSummaryBase ckvs).map Prod.fst)
          ∨ j = "selected_clips_range" := by
        unfold ctxSummaryRange at h2
        split at h2
        · exact mem_keys_dset _ _ _ _ h2
        · exact Or.inl h2
      rcases h3 with h3 | h3
      · simp [ctxSummaryBase] at h3
        rcases h3 with h3 | h3 | h3 | h3 <;> simp [summaryKeys, h3]
      · simp [summaryKeys, h3]
    · simp [summaryKeys, h2]
  · simp [summaryKeys, h1]

/-- Counterexample for C7: with an invalid time selection (start 5,
end 3, so end ≤ start) the summary still carries the bounds, not null,
although the claim requires `time_selection` to be null there. -/
theorem spec_C7_cex :
    dget (buildCtxSummary [("selected_items", Val.list []),
        ("time_selection", Val.dict [("start", Val.float 5), ("end", Val.float 3)])])
        "time_selection"
      = some (Val.dict [("start", Val.float 5), ("end", Val.float 3)]) ∧
    dget (buildCtxSummary [("selected_items", Val.list []),
        ("time_selection", Val.dict [("start", Val.float 5), ("end", Val.float 3)])])
        "time_selection" ≠ some Val.null ∧
    hasTimeSelectionOf [("selected_items", Val.list []),
        ("time_selection", Val.dict [("start", Val.float 5), ("end", Val.float 3)])]
      = false := by
  refine ⟨by rfl, ?_, by rfl⟩
  intro h
  rw [show dget (buildCtxSummary [("selected_items", Val.list []),
        ("time_selection", Val.dict [("start", Val.float 5), ("end", Val.float 3)])])
        "time_selection"
      = some (Val.dict [("start", Val.float 5), ("end", Val.float 3)]) from rfl] at h
  exact Val.noConfusion (Option.some.inj h)

/-- C7 (amended): the context summary contains only the reduced
projection keys; the time-selection bounds are included whenever both
bounds are numeric — regardless of whether end exceeds start — and the
summary's `time_selection` is null exactly when the context's
`time_selection` is missing, not an object, or has a non-numeric
bound. -/
theorem spec_C7 (ckvs : List (String × Val)) :
    (∀ j, j ∈ (buildCtxSummary ckvs).map Prod.fst → j ∈ summaryKeys) ∧
    (∀ (tskvs : List (String × Val)) (a b : ℚ),
        dget ckvs "time_selection" = some (Val.dict tskvs) →
        numValOpt (dget tskvs "start") = some a →
        numValOpt (dget tskvs "end") = some b →
        dget (buildCtxSummary ckvs) "time_selection"
          = some (Val.dict [("start", Val.float a), ("end", Val.float b)])) ∧
    (∀ tskvs : List (String × Val),
        dget ckvs "time_selection" = some (Val.dict tskvs) →
        (numValOpt (dget tskvs "start") = none ∨ numValOpt (dget tskvs "end") = none) →
        dget (buildCtxSummary ckvs) "time_selection" = some Val.null) ∧
    ((∀ tskvs : List (String × Val),
        dget ckvs "time_selection" ≠ some (Val.dict tskvs)) →
      dget (buildCtxSummary ckvs) "time_selection" = some Val.null) := by
  refine ⟨mem_keys_summary ckvs, ?_, ?_, ?_⟩
  · intro tskvs a b hget hs he
    rw [dget_summary_ts, hget]
    simp [hs, he]
  · intro tskvs hget hne
    rw [dget_summary_ts, hget]
    cases hS : numValOpt (dget tskvs "start") with
    | none => simp [hS]
    | some a =>
        cases hE : numValOpt (dget tskvs "end") with
        | none => simp [hS, hE]
        | some b =>
            rw [hS, hE] at hne
            rcases hne with h | h <;> cases h
  · intro hnone
    rw [dget_summary_ts]
    cases hv : dget ckvs "time_selection" with
    | none => simp [hv]
    | some v =>
        cases v with
        | dict ts => exact absurd hv (hnone ts)
        | null => simp [hv]
        | bool b => simp [hv]
        | int n => simp [hv]
        | float q => simp [hv]
        | str s => simp [hv]
        | list xs => simp [hv]

/-- Witness for C7: at concrete contexts, an out-of-order numeric time
selection is summarized with its bounds, a context without a time
selection summarizes it as null, and a concrete summary key is among the
allowed projection keys. -/
theorem spec_C7_witness :
    dget (buildCtxSummary [("time_selection",
        Val.dict [("start", Val.float 5), ("end", Val.float 3)])]) "time_selection"
      = some (Val.dict [("start", Val.float 5), ("end", Val.float 3)]) ∧
    dget (buildCtxSummary [("cursor", Val.float 1)]) "time_selection"
      = some Val.null ∧
    "cursor" ∈ summaryKeys := by
  refine ⟨?_, ?_, ?_⟩
  · exact (spec_C7 [("time_selection",
      Val.dict [("start", Val.float 5), ("end", Val.float 3)])]).2.1
      [("start", Val.float 5), ("end", Val.float 3)] 5 3 (by rfl) (by rfl) (by rfl)
  · exact (spec_C7 [("cursor", Val.float 1)]).2.2.2 (by intro tskvs h; cases h)
  · exact (spec_C7 []).1 "cursor" (by simp [buildCtxSummary, ctxSummaryForced,
      ctxSummaryTime, ctxSummaryRange, ctxSummaryBase, summaryStarts, summaryEnds,
      dget, selectedItemsOf, selectedTracksOf, numValOpt])

theorem fmtFixed_one_decimal (q : ℚ) :
    fmtFixed 1 q = (if q < 0 then "-" else "")
        ++ toString ((roundHalfEven (q * 10)).natAbs / 10) ++ "."
        ++ toString ((roundHalfEven (q * 10)).natAbs % 10) ∧
    (roundHalfEven (q * 10)).natAbs % 10 < 10 := by
  have hd : (roundHalfEven (q * 10)).natAbs % 10 < 10 := Nat.mod_lt _ (by norm_num)
  refine ⟨?_, hd⟩
  have hpad : padLeftZeros 1 (toString ((roundHalfEven (q * 10)).natAbs % 10))
      = toString ((roundHalfEven (q * 10)).natAbs % 10) := by
    generalize hgen : (roundHalfEven (q * 10)).natAbs % 10 = d
    rw [hgen] at hd
    interval_cases d <;> rfl
  simp only [fmtFixed, pow_one]
  norm_num [hpad]

/-- Counterexample for C8: a validated `fade_in` of 0.5 seconds — a
duration under one second — is rendered as "0.5s", in seconds, with no
millisecond form anywhere in the line. -/
theorem spec_C8_cex :
    renderToolLine ⟨"fade_in", [("seconds", Val.float (1/2))]⟩ 1 0
      = "Fade in by 0.5s" ∧
    strContains "Fade in by 0.5s" "ms" = false := by
  have hr : roundHalfEven (((1:ℚ)/2) * 10 ^ 1) = 5 := by
    have hm : ((1:ℚ)/2) * 10 ^ 1 = 5 := by norm_num
    rw [hm]
    unfold roundHalfEven
    have hf : Int.floor (5:ℚ) = 5 := by norm_num
    rw [hf]
    norm_num
  have h1 : fmtFixed 1 ((1:ℚ)/2) = "0.5" := by
    unfold fmtFixed
    rw [hr, if_neg (by norm_num : ¬ ((1:ℚ)/2 < 0))]
    rfl
  have h2 : renderToolLine ⟨"fade_in", [("seconds", Val.float (1/2))]⟩ 1 0
      = "Fade in by " ++ fmtFixed 1 ((1:ℚ)/2) ++ "s" := rfl
  rw [h2, h1]
  exact ⟨rfl, by rfl⟩

/-- C8 (amended): every duration-carrying preview line (`fade_in`,
`fade_out`, `crossfade`, `cut_middle`) shows the duration in seconds
with exactly one decimal place, for every magnitude — durations under
one second included; no millisecond rendering exists. -/
theorem spec_C8 (s : ℚ) (clipCount trackCount : Nat) :
    renderToolLine ⟨"fade_in", [("seconds", Val.float s)]⟩ clipCount trackCount
      = "Fade in by " ++ fmtFixed 1 s ++ "s" ∧
    renderToolLine ⟨"fade_out", [("seconds", Val.float s)]⟩ clipCount trackCount
      = "Fade out by " ++ fmtFixed 1 s ++ "s" ∧
    renderToolLine ⟨"crossfade", [("seconds", Val.float s)]⟩ clipCount trackCount
      = "Crossfade " ++ toString clipCount ++ " selected clips over "
        ++ fmtFixed 1 s ++ "s" ∧
    renderToolLine ⟨"cut_middle", [("seconds", Val.float s)]⟩ clipCount trackCount
      = "Remove " ++ fmtFixed 1 s ++ "s from middle of selected clip(s)" ∧
    (fmtFixed 1 s = (if s < 0 then "-" else "")
        ++ toString ((roundHalfEven (s * 10)).natAbs / 10) ++ "."
        ++ toString ((roundHalfEven (s * 10)).natAbs % 10) ∧
      (roundHalfEven (s * 10)).natAbs % 10 < 10) := by
  exact ⟨rfl, rfl, rfl, rfl, fmtFixed_one_decimal s⟩

theorem processPayload_reduce (planner : PlannerT) (payload : List (String × Val))
    (command : String) (ckvs : List (String × Val)) (tgtO : Option String) (plan : PlanS)
    (hcmd : dget payload "cmd" = some (Val.str command))
    (hne : pyStrip command ≠ "")
    (hctx : dget payload "ctx" = some (Val.dict ckvs))
    (hft : effectiveTarget payload = tgtO)
    (hplan : planToolCalls planner (cmdForTarget (pyStrip command) tgtO)
        (planningCtxOf ckvs tgtO
          (normalizeConversationHint (dget payload "conversation_hint")))
      = Except.ok plan) :
    processPayload planner payload = afterPlan plan tgtO
      (planningCtxOf ckvs tgtO
        (normalizeConversationHint (dget payload "conversation_hint"))) := by
  unfold processPayload
  rw [hcmd, hctx, hft]
  simp only [processRequest]
  rw [if_neg hne, hplan]

/-- C2: on a request carrying a forced target, when the planner again
returns needs_clarification the response is never a second clarification
(needs_clarification is false): it is ok=false with the target-specific
error exactly when the returned question mentions both "clip" and
"track" (case-insensitively), and otherwise ok=false with the generic
could-not-resolve error; negotiation is capped at one extra round for
any planner behavior. -/
theorem spec_C2 (planner : PlannerT) (payload : List (String × Val))
    (command : String) (ckvs : List (String × Val)) (tgt : String) (plan : PlanS)
    (hcmd : dget payload "cmd" = some (Val.str command))
    (hne : pyStrip command ≠ "")
    (hctx : dget payload "ctx" = some (Val.dict ckvs))
    (hft : effectiveTarget payload = some tgt)
    (hplan : planToolCalls planner (cmdForTarget (pyStrip command) (some tgt))
        (planningCtxOf ckvs (some tgt)
          (normalizeConversationHint (dget payload "conversation_hint")))
      = Except.ok plan)
    (hnc : plan.needs_clarification = true) :
    (processPayload planner payload).needs_clarification = false ∧
    (processPayload planner payload).ok = false ∧
    ((processPayload planner payload).error = some (targetError tgt) ↔
      isTargetClarification (plan.clarification_question.getD "") = true) ∧
    (isTargetClarification (plan.clarification_question.getD "") = false →
      (processPayload planner payload).error
        = some "Could not resolve command after clarification. Try a more specific command.") := by
  rw [processPayload_reduce planner payload command ckvs (some tgt) plan
    hcmd hne hctx hft hplan]
  have hTE : targetError tgt
      ≠ "Could not resolve command after clarification. Try a more specific command." := by
    unfold targetError
    split <;> decide
  cases hq : isTargetClarification (plan.clarification_question.getD "") with
  | true =>
      have hbranch : afterPlan plan (some tgt)
          (planningCtxOf ckvs (some tgt)
            (normalizeConversationHint (dget payload "conversation_hint")))
          = ⟨false, false, none, some (targetError tgt), "", []⟩ := by
        unfold afterPlan
        rw [hnc]
        simp [hq]
      rw [hbranch]
      exact ⟨rfl, rfl, by simp, by intro h; cases h⟩
  | false =>
      have hbranch : afterPlan plan (some tgt)
          (planningCtxOf ckvs (some tgt)
            (normalizeConversationHint (dget payload "conversation_hint")))
          = ⟨false, false, none,
              some "Could not resolve command after clarification. Try a more specific command.",
              "", []⟩ := by
        unfold afterPlan
        rw [hnc]
        simp [hq]
      rw [hbranch]
      refine ⟨rfl, rfl, ?_, fun _ => rfl⟩
      constructor
      · intro h
        exact absurd (Option.some.inj h).symm hTE
      · intro h
        cases h

/-- Witness for C2: the concrete forced-tracks request whose planner
again asks a clip-vs-track question yields ok=false, no second
clarification, and the target-specific error. -/
theorem spec_C2_witness :
    (processPayload w2planner w2payload).needs_clarification = false ∧
    (processPayload w2planner w2payload).ok = false ∧
    (processPayload w2planner w2payload).error = some (targetError "tracks") := by
  have h := spec_C2 w2planner w2payload "mute" [] "tracks"
    ⟨[], true, some "Apply to the clip or the track?"⟩
    rfl (by decide) rfl (by rfl) (by rfl) rfl
  exact ⟨h.1, h.2.1, h.2.2.1.mpr (by rfl)⟩

/-- Counterexample for C3: with no forced target, one selected clip and
zero tracks, a crossfade validation failure ("exactly 2 selected
clips") — a message naming the same selection kind that is populated —
still yields ok=true with needs_clarification=true and a synthesized
question, although the claim requires every such failure to be a
terminal ok=false validation error. -/
theorem spec_C3_cex :
    processPayload c3planner c3payload
      = ⟨true, true, some "Please select exactly two clips to crossfade.", none,
          "Clarification needed before generating a preview.", []⟩ := by
  rfl

/-- C3 (amended): when contextual validation fails with no forced
target, a local clarification (ok=true, needs_clarification=true,
planner not re-invoked) is synthesized exactly when the failure message
contains "selected clip" while at least one track is selected, or
contains "selected track" while at least one clip is selected, or
contains "crossfade requires exactly 2 selected clips"; every other
validation failure is a terminal ok=false validation error. -/
theorem spec_C3 (planner : PlannerT) (payload : List (String × Val))
    (command : String) (ckvs pctx : List (String × Val)) (plan : PlanS) (err : String)
    (hcmd : dget payload "cmd" = some (Val.str command))
    (hne : pyStrip command ≠ "")
    (hctx : dget payload "ctx" = some (Val.dict ckvs))
    (hft : effectiveTarget payload = none)
    (hpctx : pctx = planningCtxOf ckvs none
        (normalizeConversationHint (dget payload "conversation_hint")))
    (hplan : planToolCalls planner (cmdForTarget (pyStrip command) none) pctx
      = Except.ok plan)
    (hnc : plan.needs_clarification = false)
    (hval : validateToolPlan plan.toVal (Val.dict pctx) = (false, some err)) :
    (strContains err "selected clip" = true ∧ 0 < (selectedTracksOf pctx).length →
        processPayload planner payload
          = ⟨true, true, some "Do you mean the selected clip(s) or the selected track(s)?",
              none, "Clarification needed before generating a preview.", []⟩) ∧
    (¬ (strContains err "selected clip" = true ∧ 0 < (selectedTracksOf pctx).length) →
      strContains err "selected track" = true ∧ 0 < (selectedItemsOf pctx).length →
        processPayload planner payload
          = ⟨true, true, some "Do you mean the selected track(s) or the selected clip(s)?",
              none, "Clarification needed before generating a preview.", []⟩) ∧
    (¬ (strContains err "selected clip" = true ∧ 0 < (selectedTracksOf pctx).length) →
      ¬ (strContains err "selected track" = true ∧ 0 < (selectedItemsOf pctx).length) →
      strContains err "crossfade requires exactly 2 selected clips" = true →
        processPayload planner payload
          = ⟨true, true, some "Please select exactly two clips to crossfade.",
              none, "Clarification needed before generating a preview.", []⟩) ∧
    (¬ (strContains err "selected clip" = true ∧ 0 < (selectedTracksOf pctx).length) →
      ¬ (strContains err "selected track" = true ∧ 0 < (selectedItemsOf pctx).length) →
      ¬ strContains err "crossfade requires exactly 2 selected clips" = true →
        processPayload planner payload
          = respErr ("Validation error: " ++ err)) := by
  subst hpctx
  rw [processPayload_reduce planner payload command ckvs none plan hcmd hne hctx hft hplan]
  have hafter : afterPlan plan none
      (planningCtxOf ckvs none
        (normalizeConversationHint (dget payload "conversation_hint")))
      = (match suggestionForError err
            (planningCtxOf ckvs none
              (normalizeConversationHint (dget payload "conversation_hint"))) with
         | some q =>
             ⟨true, true, some q, none,
               "Clarification needed before generating a preview.", []⟩
         | none => respErr ("Validation error: " ++ err)) := by
    unfold afterPlan
    rw [hnc, hval]
    simp
  rw [hafter]
  unfold suggestionForError
  refine ⟨?_, ?_, ?_, ?_⟩
  · intro h1
    rw [if_pos h1]
  · intro h1 h2
    rw [if_neg h1, if_pos h2]
  · intro h1 h2 h3
    rw [if_neg h1, if_neg h2, if_pos h3]
  · intro h1 h2 h3
    rw [if_neg h1, if_neg h2, if_neg h3]

/-- Witness for C3: the concrete clip-selected, trackless request whose
plan needs a track yields the locally synthesized track-vs-clip
question with ok=true and needs_clarification=true. -/
theorem spec_C3_witness :
    processPayload w3planner w3payload
      = ⟨true, true, some "Do you mean the selected track(s) or the selected clip(s)?",
          none, "Clarification needed before generating a preview.", []⟩ := by
  have h := spec_C3 w3planner w3payload "set volume to 50%"
    [("selected_items", Val.list [Val.dict []]), ("selected_tracks", Val.list [])]
    (planningCtxOf
      [("selected_items", Val.list [Val.dict []]), ("selected_tracks", Val.list [])]
      none (normalizeConversationHint (dget w3payload "conversation_hint")))
    ⟨[⟨"set_volume_set", [("percent", Val.float 50)]⟩], false, none⟩
    "set_volume_set requires at least 1 selected track."
    rfl (by decide) rfl (by rfl) rfl (by rfl) rfl (by rfl)
  exact h.2.1 (by decide) (by constructor <;> decide)

/-- C10: a `forced_target` (or `clarification_answer`) value that is a
non-string, or a string other than a case-insensitive trimmed match of
clip/clips/track/tracks, is silently treated as absent: the response is
identical to that of the same request without the field, so it neither
produces an input error nor alters the planning context or command
text. -/
theorem spec_C10 (planner : PlannerT) (payload : List (String × Val)) :
    (normalizeTarget (dget payload "forced_target") = none →
        processPayload planner payload
          = processPayload planner (dremove payload "forced_target")) ∧
    (normalizeTarget (dget payload "clarification_answer") = none →
        processPayload planner payload
          = processPayload planner (dremove payload "clarification_answer")) := by
  constructor
  · intro h
    unfold processPayload effectiveTarget
    rw [dget_dremove_ne payload "forced_target" "cmd" (by decide),
        dget_dremove_ne payload "forced_target" "ctx" (by decide),
        dget_dremove_ne payload "forced_target" "conversation_hint" (by decide),
        dget_dremove_ne payload "forced_target" "clarification_answer" (by decide),
        dget_dremove_same]
    unfold effTarget
    rw [h]
    rfl
  · intro h
    unfold processPayload effectiveTarget
    rw [dget_dremove_ne payload "clarification_answer" "cmd" (by decide),
        dget_dremove_ne payload "clarification_answer" "ctx" (by decide),
        dget_dremove_ne payload "clarification_answer" "conversation_hint" (by decide),
        dget_dremove_ne payload "clarification_answer" "forced_target" (by decide),
        dget_dremove_same]
    unfold effTarget
    rw [h]
    cases hft : normalizeTarget (dget payload "forced_target") <;> rfl

/-- Witness for C10: a concrete request whose forced_target is the
integer 5 behaves exactly like the same request without the field. -/
theorem spec_C10_witness :
    processPayload w10planner w10payload
      = processPayload w10planner (dremove w10payload "forced_target") := by
  exact (spec_C10 w10planner w10payload).1 (by rfl)
